import Mathlib

/-!
Shallow embedding of the `cache_simulation` repository (a SimPy discrete-event
simulation of a read-through cache in front of a versioned external source),
together with proofs checking the natural-language specification against the
code.

Conventions:
* virtual time and rates are modelled as `ℚ` (the Python code uses floats, but
  every claim checked here is about exact control flow and exact arithmetic
  identities, so rationals are a faithful idealisation); the cyclic arrival
  generator, whose rate formula uses `sin`, is modelled over `ℝ`;
* versions are `ℕ`, values are `String` (the source produces
  `"data_for_" ++ name`);
* SimPy processes are modelled by explicit state passing: each maximal segment
  of Python code between two `yield` suspension points becomes one atomic Lean
  step; fallible code (Python `raise`) returns `Except`.
-/

namespace CacheSim

/-! ## Data model: `CacheEntry` (cache.py) and resources -/

/-- Structure `CacheEntry` from `cache.py`: value, source version at capture, capture
time (`env.now`). -/
structure CacheEntry where
  value : String
  version : ℕ
  timestamp : ℚ
  deriving Repr, DecidableEq

/-- A resource as the cache sees it at one instant: its unique name and its
true current version (`resource.version`, mutated only by the background
updater). -/
structure Resource where
  name : String
  version : ℕ
  deriving Repr, DecidableEq

/-! ## Metrics (metrics.py), restricted to the fields the claims touch -/

/-- The classification/event labels recorded through
`MetricsCollector.record_event` on the request path of `cache.py`. -/
inductive EventType
  | prefetch_attempt
  | hit_correct
  | hit_incorrect
  | stale_initial
  | stale_repeat
  | miss
  deriving Repr, DecidableEq

/-- One record appended by `MetricsCollector.record_cache_call`. -/
structure CacheCall where
  key : String
  start : ℚ
  finish : ℚ
  callType : String
  version : ℕ
  deriving Repr, DecidableEq

/-- The subset of `MetricsCollector` state mutated on the request path. -/
structure Metrics where
  miss_times : List ℚ := []
  correct_hits : List ℚ := []
  incorrect_hits : List ℚ := []
  stale_initial_count : ℕ := 0
  stale_repeat_count : ℕ := 0
  cache_updates : ℕ := 0
  redundant_misses : ℕ := 0
  hit_entry_ages : List ℚ := []
  stale_entry_ages : List ℚ := []
  events : List (ℚ × EventType) := []
  cache_calls : List CacheCall := []
  deriving Repr, DecidableEq

/-- Method `MetricsCollector.record_event` (only time and event label are relevant to
the claims; key string and cache size are dropped). -/
def Metrics.record_event (m : Metrics) (t : ℚ) (e : EventType) : Metrics :=
  { m with events := m.events ++ [(t, e)] }

def Metrics.record_miss (m : Metrics) (w : ℚ) : Metrics :=
  { m with miss_times := m.miss_times ++ [w] }

def Metrics.record_correct_hit (m : Metrics) (w : ℚ) : Metrics :=
  { m with correct_hits := m.correct_hits ++ [w] }

def Metrics.record_incorrect_hit (m : Metrics) (w : ℚ) : Metrics :=
  { m with incorrect_hits := m.incorrect_hits ++ [w] }

def Metrics.record_stale_initial (m : Metrics) : Metrics :=
  { m with stale_initial_count := m.stale_initial_count + 1 }

def Metrics.record_stale_repeat (m : Metrics) : Metrics :=
  { m with stale_repeat_count := m.stale_repeat_count + 1 }

def Metrics.record_cache_update (m : Metrics) : Metrics :=
  { m with cache_updates := m.cache_updates + 1 }

def Metrics.record_redundant_miss (m : Metrics) : Metrics :=
  { m with redundant_misses := m.redundant_misses + 1 }

def Metrics.record_entry_age_on_hit (m : Metrics) (age : ℚ) : Metrics :=
  { m with hit_entry_ages := m.hit_entry_ages ++ [age] }

def Metrics.record_entry_age_on_stale (m : Metrics) (age : ℚ) : Metrics :=
  { m with stale_entry_ages := m.stale_entry_ages ++ [age] }

def Metrics.record_cache_call (m : Metrics) (key : String) (start finish : ℚ)
    (callType : String) (version : ℕ) : Metrics :=
  { m with cache_calls := m.cache_calls ++ [⟨key, start, finish, callType, version⟩] }

/-! ## Single-request semantics of `Cache` (cache.py)

One logical request, with no other task interleaved, is a pure function of:
the key (name + true current version), the stored entry for that key (if any),
whether the key is in the stale-seen set, the strategy's validity verdict,
the prefetch flag, the request start time, and — for the miss path — the
`(value, version)` pair the external source will return and the virtual time
the fetch completes.  Strategy callbacks (`on_access` / `on_update`) are
recorded as invocation counts in the outcome.  Consolidation under concurrent
demand is modelled separately below (trace semantics). -/

/-- Constant `Cache._hit_delay = 1e-3`: the small fixed reading delay on a hit. -/
def hit_delay : ℚ := 1 / 1000

/-- Everything one call to `Cache._handle_request` produces or mutates. -/
structure ReqOutcome where
  result : String × ℕ
  finish : ℚ
  metrics : Metrics
  on_access_calls : ℕ
  on_update_calls : ℕ
  source_calls : ℕ
  store_after : Option CacheEntry
  stale_seen_after : Bool
  deriving Repr, DecidableEq

/-- Method `Cache._serve_hit`: classify correct/incorrect hit by comparing the cached
version to the key's true current version, record metrics, call
`strategy.on_access`, apply the reading delay, and return the cached pair.
`env.now` equals `start` here because no suspension point was crossed since the
request began. -/
def _serve_hit (key : Resource) (entry : CacheEntry) (start : ℚ)
    (stale_seen : Bool) (m : Metrics) : ReqOutcome :=
  let now := start
  let age := now - entry.timestamp
  let step :=
    if entry.version = key.version then
      (((m.record_entry_age_on_hit age).record_correct_hit (now - start)),
        "hit_correct", EventType.hit_correct)
    else
      (((m.record_entry_age_on_hit age).record_incorrect_hit (now - start)),
        "hit_incorrect", EventType.hit_incorrect)
  let m := step.1.record_event now step.2.2
  -- strategy.on_access(entry, now) — counted in the outcome
  -- yield env.timeout(hit_delay)
  let finish := now + hit_delay
  let m := m.record_cache_call key.name start finish step.2.1 entry.version
  { result := (entry.value, entry.version), finish := finish, metrics := m,
    on_access_calls := 1, on_update_calls := 0, source_calls := 0,
    store_after := some entry, stale_seen_after := stale_seen }

/-- Method `Cache._mark_stale`: record the first (`stale_initial`) or a repeated
(`stale_repeat`) stale observation; afterwards the key is in the stale-seen
set either way. -/
def _mark_stale (entry : CacheEntry) (stale_seen : Bool) (now : ℚ)
    (m : Metrics) : Metrics × Bool :=
  let age := now - entry.timestamp
  if stale_seen then
    (((m.record_entry_age_on_stale age).record_stale_repeat).record_event now
       EventType.stale_repeat, true)
  else
    (((m.record_entry_age_on_stale age).record_stale_initial).record_event now
       EventType.stale_initial, true)

/-- The metrics branch of `Cache._do_fetch` (step 2): Python
`if old_version is None or version != old_version: record_cache_update()
else: record_redundant_miss()`. -/
def fetch_counters (m : Metrics) (old_version : Option ℕ) (version : ℕ) : Metrics :=
  match old_version with
  | none => m.record_cache_update
  | some ov => if version ≠ ov then m.record_cache_update else m.record_redundant_miss

/-- What `Cache._do_fetch` produces: the fetched pair, updated metrics, the
replacement store entry, the cleared stale flag, and the strategy/source call
counts. -/
structure FetchOutcome where
  result : String × ℕ
  metrics : Metrics
  store_after : Option CacheEntry
  stale_seen_after : Bool
  on_update_calls : ℕ
  source_calls : ℕ
  deriving Repr, DecidableEq

/-- Method `Cache._do_fetch`: one call to the external source (returning `value`,
`version` at virtual time `tFetch`), genuine-update / redundant-miss
accounting, store replacement with `CacheEntry(value, version, now)`, clearing
the key from the stale-seen set, and `strategy.on_update`. -/
def _do_fetch (old_version : Option ℕ) (value : String) (version : ℕ)
    (tFetch : ℚ) (m : Metrics) : FetchOutcome :=
  -- value, version = yield from self._call_source(key): the single source call
  let m := fetch_counters m old_version version
  { result := (value, version), metrics := m,
    store_after := some ⟨value, version, tFetch⟩, stale_seen_after := false,
    on_update_calls := 1, source_calls := 1 }

/-- Method `Cache._execute_fetch` for a request that finds no fetch in flight: create
the handle, run `_do_fetch`, remove the handle on completion, and record the
miss latency and a `"miss"`-typed cache call.  `env.now` after awaiting the
fetch equals `tFetch`. -/
def _execute_fetch_solo (key : Resource) (entry : Option CacheEntry)
    (start : ℚ) (value : String) (version : ℕ) (tFetch : ℚ)
    (m : Metrics) : ReqOutcome :=
  let old_ver := entry.map (fun e => e.version)
  let f := _do_fetch old_ver value version tFetch m
  let finish := tFetch
  let m := f.metrics.record_miss (finish - start)
  let m := m.record_cache_call key.name start finish "miss" version
  { result := f.result, finish := finish, metrics := m,
    on_access_calls := 0, on_update_calls := f.on_update_calls,
    source_calls := f.source_calls, store_after := f.store_after,
    stale_seen_after := f.stale_seen_after }

/-- Method `Cache._handle_request`: prefetches record a `prefetch_attempt` event and
go straight to the consolidated fetch; otherwise a valid entry is served as a
hit, an existing invalid entry is marked stale and — like an absent entry —
classified `miss` before fetching. -/
def _handle_request (key : Resource) (entry : Option CacheEntry)
    (stale_seen : Bool) (valid : CacheEntry → ℚ → Bool) (is_prefetch : Bool)
    (start : ℚ) (value : String) (version : ℕ) (tFetch : ℚ)
    (m : Metrics) : ReqOutcome :=
  if is_prefetch then
    let m := m.record_event start EventType.prefetch_attempt
    _execute_fetch_solo key entry start value version tFetch m
  else
    match entry with
    | some e =>
      if valid e start then
        _serve_hit key e start stale_seen m
      else
        let ms := _mark_stale e stale_seen start m
        let m := ms.1.record_event start EventType.miss
        _execute_fetch_solo key entry start value version tFetch m
    | none =>
      let m := m.record_event start EventType.miss
      _execute_fetch_solo key entry start value version tFetch m

/-! ## `AdaptiveTTLStrategy` (strategies/adaptive.py) -/

/-- Constructor parameters of `AdaptiveTTLStrategy` that the recalculation
uses. -/
structure AdaptiveParams where
  theta : ℚ
  min_ttl : ℚ
  max_ttl : ℚ
  deriving Repr, DecidableEq

/-- The rolling-window state: window start time and the two counters. -/
structure AdaptiveWindow where
  t_window_start : ℚ
  n_requests : ℕ
  n_misses : ℕ
  deriving Repr, DecidableEq

/-- Method `AdaptiveTTLStrategy._reset_window`. -/
def _reset_window (now : ℚ) : AdaptiveWindow := ⟨now, 0, 0⟩

/-- The unclamped TTL of formula (1) in adaptive.py:
`θ / λ̂_upd` when updates were observed, else `max_ttl`. -/
def ttl_unclamped (p : AdaptiveParams) (lam_upd : ℚ) : ℚ :=
  if lam_upd > 0 then p.theta / lam_upd else p.max_ttl

/-- Method `AdaptiveTTLStrategy._recalculate_ttl`: Python
`window = now - self._t_window_start or 1e-9` (the `or` guards a zero-length
window), `lam_upd = n_misses / window`, formula (1), clamp with
`max(min_ttl, min(max_ttl, ttl_new))`, then start a new window.  Returns the
new TTL and the reset window. -/
def _recalculate_ttl (p : AdaptiveParams) (w : AdaptiveWindow) (now : ℚ) :
    ℚ × AdaptiveWindow :=
  let window := if now - w.t_window_start = 0 then 1 / 1000000000
                else now - w.t_window_start
  let lam_upd := (w.n_misses : ℚ) / window
  let ttl_new := ttl_unclamped p lam_upd
  let ttl_new := max p.min_ttl (min p.max_ttl ttl_new)
  (ttl_new, _reset_window now)

/-- Method `AdaptiveTTLStrategy.is_valid`: entry valid while its age is at most the
current TTL (identical formula in `FixedTTLStrategy.is_valid`). -/
def adaptive_is_valid (ttl : ℚ) (entry : CacheEntry) (now : ℚ) : Bool :=
  now - entry.timestamp ≤ ttl

/-- Methods `AdaptiveTTLStrategy.on_access` / `on_update` counter updates. -/
def adaptive_on_access (w : AdaptiveWindow) : AdaptiveWindow :=
  { w with n_requests := w.n_requests + 1 }

def adaptive_on_update (w : AdaptiveWindow) : AdaptiveWindow :=
  { w with n_requests := w.n_requests + 1, n_misses := w.n_misses + 1 }

/-! ## `ExternalSource` (external_source.py) -/

/-- Constant from `simpy.Resource(env, capacity=1)`: the single shared server. -/
def server_capacity : ℕ := 1

/-- The deterministic payload `f"data_for_{resource.name}"`. -/
def value_for (name : String) : String := "data_for_" ++ name

/-- Method `ExternalSource._request_proc`, with virtual time passed explicitly.
`verAt t` is the resource's version at virtual time `t` (it is mutated only by
the background updater, concurrently with queueing and service).  The process
notes `arrival = env.now`, waits `wait` in the shared queue, holds the server
for `service` drawn from `[min_service, max_service]`, and only then — at
`finish` — builds the result from `resource.name` and `resource.version`.
Returns the `(value, version)` pair and the completion time. -/
def _request_proc (verAt : ℚ → ℕ) (name : String) (now wait service : ℚ) :
    (String × ℕ) × ℚ :=
  let arrival := now
  let now := now + wait        -- suspended until the capacity-1 server admits us
  let now := now + service     -- yield env.timeout(service_time)
  let finish := now
  let _ := arrival
  ((value_for name, verAt finish), finish)

/-- Positional parameters of `MetricsCollector.record_source_update`
(metrics.py line 126), `self` excluded; neither has a default. -/
def record_source_update_params : List String := ["resource", "time"]

/-- Positional arguments passed at the only call site, in
`ExternalSource._update_generator` (external_source.py line 77):
`self.metrics.record_source_update(self.env.now)`. -/
def update_generator_call_args : List String := ["env.now"]

/-- A Python call binds positional arguments to parameters; with no defaults
and no varargs it succeeds exactly when the counts agree, else it raises
`TypeError`. -/
def python_call_ok (params args : List String) : Bool :=
  params.length = args.length

/-- One iteration of `ExternalSource._update_generator` after the exponential
wait: bump `resource.version` by 1, then — when a metrics collector is
attached — call `record_source_update`; the call raises when its arity is
wrong, killing the updater process. -/
def _update_generator_step (metricsAttached : Bool) (version : ℕ) :
    Except String ℕ :=
  let version := version + 1
  if metricsAttached &&
      !(python_call_ok record_source_update_params update_generator_call_args)
  then Except.error "TypeError: record_source_update() missing 1 required positional argument"
  else Except.ok version

/-! ## Constructor validation (client.py, resources/simple.py,
strategies/fixed_ttl.py, strategies/adaptive.py, simulator.py) -/

/-- Constructor `FixedTTLStrategy.__init__`: rejects a negative `ttl`. -/
def fixed_ttl_init (ttl : ℚ) : Except String ℚ :=
  if ttl < 0 then Except.error "TTL must be non-negative" else Except.ok ttl

/-- Constructor `SimpleResource.__init__`: rejects a negative `update_rate` (the base
class just stores the name and sets `version = 0`). -/
def simple_resource_init (name : String) (update_rate : ℚ) :
    Except String (String × ℚ) :=
  if update_rate < 0 then Except.error "update_rate must be non-negative"
  else Except.ok (name, update_rate)

/-- Constructor `AdaptiveTTLStrategy.__init__`: rejects a non-positive `theta`. -/
def adaptive_init (theta : ℚ) : Except String ℚ :=
  if theta ≤ 0 then Except.error "theta must be positive" else Except.ok theta

/-- Constructor `CyclicClient.__init__`: rejects amplitude outside `[0, 1]`, then a
non-positive `lambda_base` or `period`, in that order. -/
def cyclic_client_init (lambda_base amplitude period : ℚ) :
    Except String Unit :=
  if ¬ (0 ≤ amplitude ∧ amplitude ≤ 1) then
    Except.error "amplitude must be within [0, 1]"
  else if lambda_base ≤ 0 ∨ period ≤ 0 then
    Except.error "lambda_base and period must be positive"
  else Except.ok ()

/-- Constructor `Client.__init__` (the homogeneous generator): stores its arguments and
starts the generation process; it performs no validation of `arrival_rate`
at construction (`ValueError` can only arise later, inside
`_default_interarrival`, and only when the rate is `None`). -/
def client_init (arrival_rate : Option ℚ) : Except String (Option ℚ) :=
  Except.ok arrival_rate

/-- The strategy-name dispatch in `Simulator.__init__`: unknown names raise
`ValueError`. -/
def make_strategy (name : String) : Except String String :=
  if name = "fixed_ttl" then Except.ok name
  else if name = "adaptive_ttl" then Except.ok name
  else if name = "hybrid_predictive" then Except.ok name
  else Except.error "Unknown cache.strategy in config"

/-! ## `Simulator.__init__` wiring of `ExternalSource` (simulator.py) -/

/-- Keyword parameters `ExternalSource.__init__` accepts (external_source.py
lines 26–33), `self` excluded. -/
def external_source_init_params : List String :=
  ["env", "min_service", "max_service", "resources", "metrics"]

/-- Keyword arguments `Simulator.__init__` passes when constructing
`ExternalSource` (simulator.py lines 47–57). -/
def simulator_source_call_kwargs : List String :=
  ["env", "min_service", "max_service", "resources", "metrics",
   "update_pattern", "cycle_period", "cycle_amplitude", "peak_phase"]

/-- A Python call made purely with keyword arguments succeeds only if every
keyword names a declared parameter; an unexpected keyword raises `TypeError`
before the constructor body runs. -/
def python_kwcall_ok (params args : List String) : Bool :=
  args.all (fun a => params.contains a)

/-- The `ExternalSource(...)` construction step inside `Simulator.__init__`,
for a configuration whose update pattern is `pattern` ("poisson" or
"cyclic"): the same nine keywords are passed regardless of the pattern. -/
def simulator_construct_source (pattern : String) : Except String String :=
  if python_kwcall_ok external_source_init_params simulator_source_call_kwargs
  then Except.ok pattern
  else Except.error "TypeError: ExternalSource() got an unexpected keyword argument"

/-- The update-pattern variants `ExternalSource` actually implements: its
constructor unconditionally starts `_update_generator` (homogeneous Poisson)
for every resource, and no other updater exists in external_source.py. -/
def external_source_update_variants : List String := ["poisson"]

/-! ## Fetch consolidation under concurrent demand (`Cache._execute_fetch`)

SimPy interleaves logical tasks cooperatively: each maximal run of Python code
between two `yield`s executes atomically.  On the consolidation path of
cache.py these atomic segments are:

* **subscribe** — `_execute_fetch` lines 160–166: look up `self._inflight[key]`;
  if absent, create the `_do_fetch` process (which will make exactly one call
  to the external source), store its handle in the map, and in either case
  start waiting on the handle;
* **complete** — the `_do_fetch` process finishes and its SimPy event is
  triggered with the fetched `(value, version)`; a SimPy process triggers at
  most once and its value is immutable afterwards;
* **observe** — `_execute_fetch` lines 169–178: resume from `yield fetch_evt`
  with the fetch's value, then
  `if self._inflight.get(key) is fetch_evt: del self._inflight[key]`
  (the `.get` makes removal by a later observer a no-op, never a `KeyError`).

A `RequestId` names one activation of `_execute_fetch`, so it subscribes at
most once; `step` is a total function — no action can fail. -/

namespace Consolidation

abbrev Key := ℕ
abbrev HandleId := ℕ
abbrev RequestId := ℕ

/-- Pointwise update of a map modelled as a function. -/
def upd {α : Type} (f : ℕ → Option α) (i : ℕ) (v : Option α) : ℕ → Option α :=
  fun j => if j = i then v else f j

/-- The shared state of the consolidation mechanism: the in-flight map (a
Python dict, hence at most one handle per key by construction), a fresh-handle
counter, the log of calls that reached the external source (one per created
`_do_fetch` process), each handle's completion value, which handle each
request awaits, and each request's resolved result. -/
structure State where
  inflight : Key → Option HandleId
  next_handle : HandleId
  source_calls : List (HandleId × Key)
  fetch_result : HandleId → Option (String × ℕ)
  waiting : RequestId → Option HandleId
  resolved : RequestId → Option (String × ℕ)

/-- State before any request: empty maps, no calls. -/
def init : State :=
  ⟨fun _ => none, 0, [], fun _ => none, fun _ => none, fun _ => none⟩

/-- The atomic segments described above. -/
inductive Action
  | subscribe (r : RequestId) (k : Key)
  | complete (h : HandleId) (res : String × ℕ)
  | observe (r : RequestId) (k : Key)

/-- One atomic step of the consolidation machinery. -/
def step (s : State) : Action → State
  | .subscribe r k =>
    match s.waiting r with
    | some _ => s
    | none =>
      match s.inflight k with
      | some h => { s with waiting := upd s.waiting r (some h) }
      | none =>
        let h := s.next_handle
        { s with inflight := upd s.inflight k (some h),
                 next_handle := h + 1,
                 source_calls := s.source_calls ++ [(h, k)],
                 waiting := upd s.waiting r (some h) }
  | .complete h res =>
    match s.fetch_result h with
    | some _ => s
    | none => { s with fetch_result := upd s.fetch_result h (some res) }
  | .observe r k =>
    match s.waiting r with
    | none => s
    | some h =>
      match s.fetch_result h with
      | none => s
      | some res =>
        if s.inflight k = some h then
          { s with resolved := upd s.resolved r (some res),
                   inflight := upd s.inflight k none }
        else
          { s with resolved := upd s.resolved r (some res) }

/-- Run a whole interleaving from the initial state. -/
def run_trace (as : List Action) : State := as.foldl step init

/-- The inductive invariant: a resolved request resolved to the completion
value of the handle it awaits; awaited and in-flight handles made a source
call; recorded calls carry handles below the fresh counter; and no handle
called the source twice. -/
structure Inv (s : State) : Prop where
  resolved_fetch : ∀ r p, s.resolved r = some p →
    ∃ h, s.waiting r = some h ∧ s.fetch_result h = some p
  waiting_called : ∀ r h, s.waiting r = some h →
    h ∈ s.source_calls.map Prod.fst
  inflight_called : ∀ k h, s.inflight k = some h →
    h ∈ s.source_calls.map Prod.fst
  calls_lt : ∀ h, h ∈ s.source_calls.map Prod.fst → h < s.next_handle
  calls_nodup : (s.source_calls.map Prod.fst).Nodup

/-- A concrete interleaving: two requests for key 5 arrive while no fetch is
in flight, the second subscribes while the first one's fetch is outstanding,
the fetch completes with `("data_for_r-1", 3)`, and both requests observe the
completion in turn. -/
def demo_trace : List Action :=
  [Action.subscribe 0 5, Action.subscribe 1 5,
   Action.complete 0 ("data_for_r-1", 3),
   Action.observe 0 5, Action.observe 1 5]

end Consolidation

/-! ## `CyclicClient` (client.py): time-varying Poisson arrivals by thinning

Modelled over `ℝ` because the intensity formula uses `sin`.  The stream of
random draws is passed explicitly: each candidate is a pair `(tau, u)` of the
exponential gap `random.expovariate(self._lambda_max)` and the uniform
`random.random()` used in the acceptance check. -/

/-- Constructor parameters of `CyclicClient`. -/
structure CyclicParams where
  lambda_base : ℝ
  amplitude : ℝ
  period : ℝ

/-- Method `CyclicClient._instant_rate`: `λ(t) = λ_base·(1 + A·sin(2π t / P))`. -/
noncomputable def _instant_rate (c : CyclicParams) (t : ℝ) : ℝ :=
  c.lambda_base * (1 + c.amplitude * Real.sin (2 * Real.pi * t / c.period))

/-- Field `self._lambda_max = self.lambda_base * (1 + self.amplitude)`: the
envelope rate for thinning. -/
def _lambda_max (c : CyclicParams) : ℝ := c.lambda_base * (1 + c.amplitude)

/-- The rate parameter handed to `random.expovariate` when drawing a
candidate inter-arrival gap (client.py line 162). -/
def candidate_rate (c : CyclicParams) : ℝ := _lambda_max c

/-- The inner `while True` of `CyclicClient._generate_clients`: walk the
candidate stream, advancing only the local variable `t_cur` by each gap,
until a candidate at `t = t_cur + tau` passes the acceptance test
`u ≤ λ(t)/λ_max`; return the accepted time and the unconsumed stream
(`none` when the stream runs dry). -/
noncomputable def thin_loop (c : CyclicParams) :
    ℝ → List (ℝ × ℝ) → Option (ℝ × List (ℝ × ℝ))
  | _, [] => none
  | tCur, (tau, u) :: rest =>
    let t := tCur + tau
    if u ≤ _instant_rate c t / _lambda_max c then some (t, rest)
    else thin_loop c t rest

/-- One iteration of the outer loop of `_generate_clients`: run the thinning
loop from the current global clock, then `yield env.timeout(t_cur - env.now)`
— advancing the global clock to the accepted time — and spawn exactly one
request there.  Returns (new global clock, times of issued requests,
remaining stream). -/
noncomputable def _generate_one (c : CyclicParams) (now : ℝ)
    (draws : List (ℝ × ℝ)) : Option (ℝ × List ℝ × List (ℝ × ℝ)) :=
  match thin_loop c now draws with
  | none => none
  | some (t, rest) => some (now + (t - now), [t], rest)

/-! # Theorems -/

namespace Consolidation

theorem inv_init : Inv init := by
  constructor <;> intros <;> simp_all [init]

theorem inv_step {s : State} (hs : Inv s) (a : Action) : Inv (step s a) := by
  obtain ⟨hrf, hwc, hic, hcl, hnd⟩ := hs
  cases a with
  | subscribe r k =>
    cases hw : s.waiting r with
    | some h0 => simpa [step, hw] using ⟨hrf, hwc, hic, hcl, hnd⟩
    | none =>
      cases hk : s.inflight k with
      | some h0 =>
        refine ⟨?_, ?_, ?_, ?_, ?_⟩ <;> simp only [step, hw, hk]
        · intro r' p hp
          obtain ⟨h, hwh, hfh⟩ := hrf r' p hp
          refine ⟨h, ?_, hfh⟩
          simp only [upd]
          split
          · next heq => rw [heq, hw] at hwh; exact absurd hwh (by simp)
          · exact hwh
        · intro r' h hh
          simp only [upd] at hh
          split at hh
          · exact (Option.some.injEq _ _ ▸ hh) ▸ hic k h0 hk
          · exact hwc r' h hh
        · exact hic
        · exact hcl
        · exact hnd
      | none =>
        refine ⟨?_, ?_, ?_, ?_, ?_⟩ <;> simp only [step, hw, hk]
        · intro r' p hp
          obtain ⟨h, hwh, hfh⟩ := hrf r' p hp
          refine ⟨h, ?_, hfh⟩
          simp only [upd]
          split
          · next heq => rw [heq, hw] at hwh; exact absurd hwh (by simp)
          · exact hwh
        · intro r' h hh
          rw [List.map_append]
          simp only [upd] at hh
          split at hh
          · rcases Option.some.inj hh with rfl
            exact List.mem_append_right _ (by simp)
          · exact List.mem_append_left _ (hwc r' h hh)
        · intro k' h hh
          rw [List.map_append]
          simp only [upd] at hh
          split at hh
          · rcases Option.some.inj hh with rfl
            exact List.mem_append_right _ (by simp)
          · exact List.mem_append_left _ (hic k' h hh)
        · intro h hh
          rw [List.map_append, List.mem_append] at hh
          rcases hh with hh | hh
          · exact Nat.lt_succ_of_lt (hcl h hh)
          · simp only [List.map_cons, List.map_nil, List.mem_singleton] at hh
            subst hh
            exact Nat.lt_succ_self _
        · rw [List.map_append]
          refine List.Nodup.append hnd (by simp) ?_
          intro a ha hb
          simp only [List.map_cons, List.map_nil, List.mem_singleton] at hb
          subst hb
          exact absurd (hcl _ ha) (lt_irrefl _)
  | complete h res =>
    cases hf : s.fetch_result h with
    | some _ => simpa [step, hf] using ⟨hrf, hwc, hic, hcl, hnd⟩
    | none =>
      refine ⟨?_, ?_, ?_, ?_, ?_⟩ <;> simp only [step, hf]
      · intro r' p hp
        obtain ⟨h', hwh, hfh⟩ := hrf r' p hp
        refine ⟨h', hwh, ?_⟩
        simp only [upd]
        split
        · next heq => rw [heq, hf] at hfh; exact absurd hfh (by simp)
        · exact hfh
      · exact hwc
      · exact hic
      · exact hcl
      · exact hnd
  | observe r k =>
    cases hw : s.waiting r with
    | none => simpa [step, hw] using ⟨hrf, hwc, hic, hcl, hnd⟩
    | some h =>
      cases hf : s.fetch_result h with
      | none => simpa [step, hw, hf] using ⟨hrf, hwc, hic, hcl, hnd⟩
      | some res0 =>
        by_cases hin : s.inflight k = some h
        · have hstep : step s (Action.observe r k) =
              { s with resolved := upd s.resolved r (some res0),
                       inflight := upd s.inflight k none } := by
            simp only [step, hw, hf]
            rw [if_pos hin]
          rw [hstep]
          refine ⟨?_, hwc, ?_, hcl, hnd⟩
          · intro r' p hp
            simp only [upd] at hp
            split at hp
            · next heq =>
              rcases Option.some.inj hp with rfl
              subst heq
              exact ⟨h, hw, hf⟩
            · exact hrf r' p hp
          · intro k' h' hh
            simp only [upd] at hh
            split at hh
            · exact absurd hh (by simp)
            · exact hic k' h' hh
        · have hstep : step s (Action.observe r k) =
              { s with resolved := upd s.resolved r (some res0) } := by
            simp only [step, hw, hf]
            rw [if_neg hin]
          rw [hstep]
          refine ⟨?_, hwc, hic, hcl, hnd⟩
          intro r' p hp
          simp only [upd] at hp
          split at hp
          · next heq =>
            rcases Option.some.inj hp with rfl
            subst heq
            exact ⟨h, hw, hf⟩
          · exact hrf r' p hp

theorem inv_foldl {s : State} (hs : Inv s) (as : List Action) :
    Inv (as.foldl step s) := by
  induction as generalizing s with
  | nil => exact hs
  | cons a as ih => exact ih (inv_step hs a)

theorem inv_run (as : List Action) : Inv (run_trace as) :=
  inv_foldl inv_init as


/-- C1: for every key, all logical requests that await the same in-flight
fetch handle resolve to the identical `(value, version)` pair, namely the one
produced by that single fetch; exactly one call reaches the external source
for that handle; a request subscribing while the fetch is outstanding attaches
to the existing handle and adds no source call; the in-flight map holds at
most one live handle per key; and removal of the handle is idempotent — an
observer finding it already removed leaves the map unchanged (`step` is a
total function, so this is a no-op, never an error). -/
theorem consolidation_correct (as : List Action) (k : Key) (r1 r2 : RequestId)
    (h : HandleId) (p1 p2 : String × ℕ)
    (hw1 : (run_trace as).waiting r1 = some h)
    (hw2 : (run_trace as).waiting r2 = some h)
    (hr1 : (run_trace as).resolved r1 = some p1)
    (hr2 : (run_trace as).resolved r2 = some p2) :
    p1 = p2 ∧
    (run_trace as).fetch_result h = some p1 ∧
    ((run_trace as).source_calls.map Prod.fst).count h = 1 ∧
    (∀ r' k' h', (run_trace as).inflight k' = some h' →
      ((run_trace as).waiting r' = none →
        (step (run_trace as) (Action.subscribe r' k')).waiting r' = some h') ∧
      (step (run_trace as) (Action.subscribe r' k')).source_calls =
        (run_trace as).source_calls) ∧
    (∀ k', ((run_trace as).inflight k').elim 0 (fun _ => 1) ≤ 1) ∧
    ((run_trace as).inflight k ≠ some h →
      (step (run_trace as) (Action.observe r2 k)).inflight =
        (run_trace as).inflight) := by
  obtain ⟨hrf, hwc, hic, hcl, hnd⟩ := inv_run as
  obtain ⟨h1, hwh1, hfh1⟩ := hrf r1 p1 hr1
  rw [hw1] at hwh1
  obtain rfl := Option.some.inj hwh1
  obtain ⟨h2, hwh2, hfh2⟩ := hrf r2 p2 hr2
  rw [hw2] at hwh2
  obtain rfl := Option.some.inj hwh2
  have hp : p1 = p2 := by
    rw [hfh1] at hfh2
    exact Option.some.inj hfh2
  refine ⟨hp, hfh1, ?_, ?_, ?_, ?_⟩
  · exact List.count_eq_one_of_mem hnd (hwc r1 _ hw1)
  · intro r' k' h' hin
    constructor
    · intro hwn
      simp [step, hwn, hin, upd]
    · cases hwr : (run_trace as).waiting r' with
      | some _ => simp [step, hwr]
      | none => simp [step, hwr, hin]
  · intro k'
    cases (run_trace as).inflight k' <;> simp
  · intro hne
    simp only [step, hw2, hfh2]
    rw [if_neg hne]

/-- Witness for `consolidation_correct` on `demo_trace`: two requests for
key 5 awaiting handle 0 both resolve, and the source was called exactly once
for that handle. -/
theorem consolidation_correct_witness :
    (run_trace demo_trace).waiting 0 = some 0 ∧
    (run_trace demo_trace).waiting 1 = some 0 ∧
    (run_trace demo_trace).resolved 0 = some ("data_for_r-1", 3) ∧
    (run_trace demo_trace).resolved 1 = some ("data_for_r-1", 3) ∧
    ((run_trace demo_trace).source_calls.map Prod.fst).count 0 = 1 :=
  ⟨by decide, by decide, by decide, by decide,
    (consolidation_correct demo_trace 5 0 1 0 ("data_for_r-1", 3)
      ("data_for_r-1", 3) (by decide) (by decide) (by decide) (by decide)).2.2.1⟩

end Consolidation

/-- C2: at each recalculation wake-up with update counter `u = n_misses` and
elapsed window `w = now - t_window_start > 0`, the new TTL is
`θ / (u/w)` when `u/w > 0` and `max_ttl` when `u/w = 0`, clamped into
`[min_ttl, max_ttl]`; the window counters and start time are reset; the
computed TTL lies within `[min_ttl, max_ttl]`; a window with no updates
yields exactly `max_ttl`; and with `θ = 1`, window duration 100 and 2
updates the pre-clamp TTL is 50. -/
theorem adaptive_recalc_spec (p : AdaptiveParams) (w : AdaptiveWindow)
    (now : ℚ) (hnow : w.t_window_start < now) (hmm : p.min_ttl ≤ p.max_ttl) :
    (_recalculate_ttl p w now).1 =
      max p.min_ttl (min p.max_ttl
        (ttl_unclamped p ((w.n_misses : ℚ) / (now - w.t_window_start)))) ∧
    (0 < (w.n_misses : ℚ) / (now - w.t_window_start) →
      ttl_unclamped p ((w.n_misses : ℚ) / (now - w.t_window_start)) =
        p.theta / ((w.n_misses : ℚ) / (now - w.t_window_start))) ∧
    ((w.n_misses : ℚ) / (now - w.t_window_start) = 0 →
      ttl_unclamped p ((w.n_misses : ℚ) / (now - w.t_window_start)) = p.max_ttl) ∧
    p.min_ttl ≤ (_recalculate_ttl p w now).1 ∧
    (_recalculate_ttl p w now).1 ≤ p.max_ttl ∧
    (w.n_misses = 0 → (_recalculate_ttl p w now).1 = p.max_ttl) ∧
    (_recalculate_ttl p w now).2 = _reset_window now ∧
    ttl_unclamped ⟨1, p.min_ttl, p.max_ttl⟩ ((2 : ℚ) / 100) = 50 := by
  have hne : now - w.t_window_start ≠ 0 := sub_ne_zero.mpr (ne_of_gt hnow)
  have hstep : _recalculate_ttl p w now =
      (max p.min_ttl (min p.max_ttl
        (ttl_unclamped p ((w.n_misses : ℚ) / (now - w.t_window_start)))),
       _reset_window now) := by
    simp [_recalculate_ttl, hne]
  refine ⟨by rw [hstep], ?_, ?_, ?_, ?_, ?_, by rw [hstep], by norm_num [ttl_unclamped]⟩
  · intro hpos
    simp [ttl_unclamped, hpos]
  · intro hz
    simp [ttl_unclamped, hz]
  · rw [hstep]
    exact le_max_left _ _
  · rw [hstep]
    exact max_le hmm (min_le_left _ _)
  · intro h0
    rw [hstep]
    simp [ttl_unclamped, h0, min_self, max_eq_right hmm]

/-- Witness for `adaptive_recalc_spec` at the default bounds
`min_ttl = 1`, `max_ttl = 3600`, window start 0, 100 requests and 2 updates,
recalculated at `now = 100`. -/
theorem adaptive_recalc_spec_witness :
    ((0 : ℚ) < 100) ∧ ((1 : ℚ) ≤ 3600) ∧
    ttl_unclamped ⟨1, 1, 3600⟩ ((2 : ℚ) / 100) = 50 :=
  ⟨by norm_num, by norm_num,
    (adaptive_recalc_spec ⟨1, 1, 3600⟩ ⟨0, 100, 2⟩ 100 (by norm_num)
      (by norm_num)).2.2.2.2.2.2.2⟩

/-- C3: a non-prefetch request on a key whose entry exists and is valid per
the strategy is classified `hit_correct` exactly when the cached version
equals the key's true current version and `hit_incorrect` otherwise;
`on_access` is invoked once, the fixed reading delay is applied, and the
request returns `(entry.value, entry.version)` with no source call. -/
theorem hit_path_spec (key : Resource) (e : CacheEntry) (stale_seen : Bool)
    (valid : CacheEntry → ℚ → Bool) (start : ℚ) (value : String)
    (version : ℕ) (tFetch : ℚ) (m : Metrics)
    (hv : valid e start = true) :
    (_handle_request key (some e) stale_seen valid false start value version
        tFetch m).result = (e.value, e.version) ∧
    (_handle_request key (some e) stale_seen valid false start value version
        tFetch m).source_calls = 0 ∧
    (_handle_request key (some e) stale_seen valid false start value version
        tFetch m).on_access_calls = 1 ∧
    (_handle_request key (some e) stale_seen valid false start value version
        tFetch m).finish = start + hit_delay ∧
    (e.version = key.version →
      (_handle_request key (some e) stale_seen valid false start value version
        tFetch m).metrics.events = m.events ++ [(start, EventType.hit_correct)]) ∧
    (e.version ≠ key.version →
      (_handle_request key (some e) stale_seen valid false start value version
        tFetch m).metrics.events = m.events ++ [(start, EventType.hit_incorrect)]) := by
  by_cases hev : e.version = key.version <;>
    refine ⟨?_, ?_, ?_, ?_, ?_, ?_⟩ <;>
      simp [_handle_request, hv, _serve_hit, hev, Metrics.record_event,
        Metrics.record_entry_age_on_hit, Metrics.record_correct_hit,
        Metrics.record_incorrect_hit, Metrics.record_cache_call]

/-- Witness for `hit_path_spec`: a valid entry with matching version at a
concrete input is served as a correct hit from the cache. -/
theorem hit_path_spec_witness :
    ((fun (_ : CacheEntry) (_ : ℚ) => true) ⟨"data_for_r-1", 4, 10⟩ (12 : ℚ)
      = true) ∧
    (_handle_request ⟨"r-1", 4⟩ (some ⟨"data_for_r-1", 4, 10⟩) false
        (fun _ _ => true) false 12 "data_for_r-1" 4 13
        ({} : Metrics)).result = ("data_for_r-1", 4) :=
  ⟨rfl,
    (hit_path_spec ⟨"r-1", 4⟩ ⟨"data_for_r-1", 4, 10⟩ false
      (fun _ _ => true) 12 "data_for_r-1" 4 13 {} rfl).1⟩

/-- C5: `ExternalSource._request_proc` completes at
`arrival + wait + service`, returns the resource's version read at that
completion instant (not at admission), and a value that is a function of the
resource identity alone; the shared server has capacity 1. -/
theorem request_proc_spec (verAt : ℚ → ℕ) (name : String)
    (now wait service : ℚ) :
    (_request_proc verAt name now wait service).2 = now + wait + service ∧
    (_request_proc verAt name now wait service).1.2 =
      verAt (now + wait + service) ∧
    (_request_proc verAt name now wait service).1.1 = value_for name ∧
    (∀ verAt' now' wait' service',
      (_request_proc verAt' name now' wait' service').1.1 =
        (_request_proc verAt name now wait service).1.1) ∧
    server_capacity = 1 :=
  ⟨rfl, rfl, rfl, fun _ _ _ _ => rfl, rfl⟩

/-- C4 counterexample: a prefetch DOES append to the miss latency record.
Starting from empty metrics, a prefetch on an absent key whose fetch
completes at `t = 1` leaves `miss_times = [1]` (and a `"miss"`-typed cache
call), because `_execute_fetch` records them unconditionally — refuting the
claim that a prefetch does not increment the miss latency record. -/
theorem prefetch_records_miss_latency :
    (_handle_request ⟨"r-1", 0⟩ none false (fun _ _ => false) true 0
        "data_for_r-1" 0 1 ({} : Metrics)).metrics.miss_times = [1] ∧
    (_handle_request ⟨"r-1", 0⟩ none false (fun _ _ => false) true 0
        "data_for_r-1" 0 1 ({} : Metrics)).metrics.cache_calls =
      [⟨"r-1", 0, 1, "miss", 0⟩] := by
  refine ⟨?_, ?_⟩ <;>
    simp [_handle_request, _execute_fetch_solo, _do_fetch, fetch_counters,
      Metrics.record_event, Metrics.record_miss, Metrics.record_cache_call,
      Metrics.record_cache_update]

/-- C4 (amended): a prefetch bypasses the hit/stale classification entirely —
it records only a `prefetch_attempt` event, none of
`hit_correct`/`hit_incorrect`/`stale_initial`/`stale_repeat`/`miss`, and
leaves the hit latency lists and stale counters untouched — and proceeds
directly to the consolidated fetch (one source call); however, the completed
fetch does append the request's latency to the miss latency record. -/
theorem prefetch_path_spec (key : Resource) (entry : Option CacheEntry)
    (stale_seen : Bool) (valid : CacheEntry → ℚ → Bool) (start : ℚ)
    (value : String) (version : ℕ) (tFetch : ℚ) (m : Metrics) :
    (_handle_request key entry stale_seen valid true start value version
        tFetch m).metrics.events =
      m.events ++ [(start, EventType.prefetch_attempt)] ∧
    (_handle_request key entry stale_seen valid true start value version
        tFetch m).source_calls = 1 ∧
    (_handle_request key entry stale_seen valid true start value version
        tFetch m).metrics.correct_hits = m.correct_hits ∧
    (_handle_request key entry stale_seen valid true start value version
        tFetch m).metrics.incorrect_hits = m.incorrect_hits ∧
    (_handle_request key entry stale_seen valid true start value version
        tFetch m).metrics.stale_initial_count = m.stale_initial_count ∧
    (_handle_request key entry stale_seen valid true start value version
        tFetch m).metrics.stale_repeat_count = m.stale_repeat_count ∧
    (_handle_request key entry stale_seen valid true start value version
        tFetch m).metrics.miss_times = m.miss_times ++ [tFetch - start] ∧
    (_handle_request key entry stale_seen valid true start value version
        tFetch m).result = (value, version) := by
  cases entry with
  | none =>
    refine ⟨?_, ?_, ?_, ?_, ?_, ?_, ?_, ?_⟩ <;>
      simp [_handle_request, _execute_fetch_solo, _do_fetch, fetch_counters,
        Metrics.record_event, Metrics.record_miss, Metrics.record_cache_call,
        Metrics.record_cache_update, Metrics.record_redundant_miss]
  | some e =>
    by_cases hv : version = e.version <;>
      refine ⟨?_, ?_, ?_, ?_, ?_, ?_, ?_, ?_⟩ <;>
        simp [_handle_request, _execute_fetch_solo, _do_fetch, fetch_counters,
          hv, Metrics.record_event, Metrics.record_miss,
          Metrics.record_cache_call, Metrics.record_cache_update,
          Metrics.record_redundant_miss]

/-- C6: the iteration body of `ExternalSource._update_generator` increments
the version by exactly 1, but when a metrics collector is attached the
metrics-recording step raises `TypeError` — the call site passes one
positional argument to `MetricsCollector.record_source_update`, which
requires two — so the iteration does not complete without raising. -/
theorem update_generator_arity_bug :
    _update_generator_step true 0 =
      Except.error
        "TypeError: record_source_update() missing 1 required positional argument" ∧
    python_call_ok record_source_update_params update_generator_call_args
      = false ∧
    (∀ v, _update_generator_step false v = Except.ok (v + 1)) :=
  ⟨rfl, rfl, fun _ => rfl⟩

/-- C7: the cyclic generator draws candidate gaps at the envelope rate
`λ_max = λ_base·(1+A)`; a candidate at `t = t_cur + tau` is accepted exactly
when `u ≤ λ(t)/λ_max` with `λ(t) = λ_base·(1 + A·sin(2πt/P))`; on acceptance
the outer loop advances the global clock to `t` and issues exactly one
request there; on rejection nothing is issued and only the local candidate
time advances (`thin_loop` carries no global clock at all). -/
theorem cyclic_thinning_spec (c : CyclicParams) (tCur tau u : ℝ)
    (rest : List (ℝ × ℝ)) (now : ℝ) (draws : List (ℝ × ℝ)) (t : ℝ)
    (rest' : List (ℝ × ℝ)) :
    _lambda_max c = c.lambda_base * (1 + c.amplitude) ∧
    candidate_rate c = _lambda_max c ∧
    (∀ s, _instant_rate c s =
      c.lambda_base * (1 + c.amplitude * Real.sin (2 * Real.pi * s / c.period))) ∧
    (u ≤ _instant_rate c (tCur + tau) / _lambda_max c →
      thin_loop c tCur ((tau, u) :: rest) = some (tCur + tau, rest)) ∧
    (¬ u ≤ _instant_rate c (tCur + tau) / _lambda_max c →
      thin_loop c tCur ((tau, u) :: rest) = thin_loop c (tCur + tau) rest) ∧
    (thin_loop c now draws = some (t, rest') →
      _generate_one c now draws = some (t, [t], rest')) := by
  refine ⟨rfl, rfl, fun _ => rfl, ?_, ?_, ?_⟩
  · intro hacc
    simp only [thin_loop]
    rw [if_pos hacc]
  · intro hrej
    simp only [thin_loop]
    rw [if_neg hrej]
  · intro hloop
    have hclock : now + (t - now) = t := by ring
    simp [_generate_one, hloop, hclock]

/-- Witness for `cyclic_thinning_spec` with `λ_base = 1`, `A = 0`, `P = 1`:
the candidate at `t = 0 + 1` with `u = 1/2` passes the acceptance test and
the thinning loop accepts it. -/
theorem cyclic_thinning_spec_witness :
    ((1 : ℝ) / 2 ≤ _instant_rate ⟨1, 0, 1⟩ (0 + 1) / _lambda_max ⟨1, 0, 1⟩) ∧
    thin_loop ⟨1, 0, 1⟩ 0 [(1, 1 / 2)] = some (0 + 1, []) := by
  have hle : (1 : ℝ) / 2 ≤ _instant_rate ⟨1, 0, 1⟩ (0 + 1) / _lambda_max ⟨1, 0, 1⟩ := by
    simp [_instant_rate, _lambda_max]
    norm_num
  exact ⟨hle,
    (cyclic_thinning_spec ⟨1, 0, 1⟩ 0 1 (1 / 2) [] 0 [] 0 []).2.2.2.1 hle⟩

/-- C8: per completed fetch, if the fetched version equals the pre-fetch
cached version the redundant-miss counter alone is incremented; if it differs
or no pre-fetch version existed the genuine-update counter alone is
incremented; exactly one of the two counters is incremented. -/
theorem fetch_counters_spec (m : Metrics) (old_version : Option ℕ)
    (version : ℕ) :
    ((old_version = none ∨ old_version ≠ some version) →
      (fetch_counters m old_version version).cache_updates =
        m.cache_updates + 1 ∧
      (fetch_counters m old_version version).redundant_misses =
        m.redundant_misses) ∧
    (old_version = some version →
      (fetch_counters m old_version version).redundant_misses =
        m.redundant_misses + 1 ∧
      (fetch_counters m old_version version).cache_updates =
        m.cache_updates) ∧
    (fetch_counters m old_version version).cache_updates +
        (fetch_counters m old_version version).redundant_misses =
      m.cache_updates + m.redundant_misses + 1 := by
  cases old_version with
  | none =>
    simp [fetch_counters, Metrics.record_cache_update]
    omega
  | some ov =>
    by_cases hv : version = ov <;>
      simp [fetch_counters, hv, Metrics.record_cache_update,
        Metrics.record_redundant_miss] <;>
      omega

/-- Witness for `fetch_counters_spec`: a fetch returning the already-cached
version 3 increments only the redundant-miss counter. -/
theorem fetch_counters_spec_witness :
    ((some 3 : Option ℕ) = some 3) ∧
    (fetch_counters ({} : Metrics) (some 3) 3).redundant_misses = 0 + 1 ∧
    (fetch_counters ({} : Metrics) (some 3) 3).cache_updates = 0 :=
  ⟨rfl, ((fetch_counters_spec {} (some 3) 3).2.1 rfl).1,
    ((fetch_counters_spec {} (some 3) 3).2.1 rfl).2⟩

/-- C9: `Simulator.__init__` passes the cyclic-update keywords
(`update_pattern`, `cycle_period`, `cycle_amplitude`, `peak_phase`) to
`ExternalSource`, whose constructor accepts none of them — so constructing
the simulation raises `TypeError` for every configuration, cyclic or not —
and external_source.py implements only the homogeneous Poisson updater, so
no cyclic update variant can run in its place. -/
theorem simulator_cyclic_wiring_bug :
    python_kwcall_ok external_source_init_params simulator_source_call_kwargs
      = false ∧
    simulator_construct_source "cyclic" =
      Except.error "TypeError: ExternalSource() got an unexpected keyword argument" ∧
    simulator_construct_source "poisson" =
      Except.error "TypeError: ExternalSource() got an unexpected keyword argument" ∧
    external_source_update_variants = ["poisson"] :=
  ⟨rfl, rfl, rfl, rfl⟩

/-- C10 counterexample: `SimpleResource("r-1", 0)` — a non-positive (zero)
update rate — is accepted at construction (`update_rate < 0` is the only
check), and `Client` accepts a negative arrival rate at construction,
refuting the claim that any resource/arrival generator with a non-positive
rate fails at construction. -/
theorem zero_update_rate_accepted :
    simple_resource_init "r-1" 0 = Except.ok ("r-1", 0) ∧
    client_init (some (-1)) = Except.ok (some (-1)) := by
  constructor
  · simp [simple_resource_init]
  · rfl

/-- C10 (amended): a negative TTL, a cyclic generator amplitude outside
`[0, 1]` or non-positive rate/period, a non-positive `θ`, an unrecognized
strategy name, and a negative resource update rate are all rejected with an
error at construction time and never silently defaulted; but a resource with
a zero update rate, and a homogeneous `Client` with any rate, are accepted
at construction. -/
theorem config_validation_spec (ttl rate amp period theta : ℚ)
    (name : String) :
    (ttl < 0 → (fixed_ttl_init ttl).isOk = false) ∧
    (0 ≤ ttl → fixed_ttl_init ttl = Except.ok ttl) ∧
    (¬ (0 ≤ amp ∧ amp ≤ 1) →
      (cyclic_client_init rate amp period).isOk = false) ∧
    (0 ≤ amp → amp ≤ 1 → rate ≤ 0 ∨ period ≤ 0 →
      (cyclic_client_init rate amp period).isOk = false) ∧
    (theta ≤ 0 → (adaptive_init theta).isOk = false) ∧
    (name ≠ "fixed_ttl" → name ≠ "adaptive_ttl" →
      name ≠ "hybrid_predictive" → (make_strategy name).isOk = false) ∧
    (rate < 0 → (simple_resource_init name rate).isOk = false) ∧
    simple_resource_init name 0 = Except.ok (name, 0) ∧
    client_init (some rate) = Except.ok (some rate) := by
  refine ⟨?_, ?_, ?_, ?_, ?_, ?_, ?_, ?_, rfl⟩
  · intro h
    simp [fixed_ttl_init, h, Except.isOk, Except.toBool]
  · intro h
    simp [fixed_ttl_init, not_lt.mpr h]
  · intro h
    simp [cyclic_client_init, h, Except.isOk, Except.toBool]
  · intro h1 h2 h3
    simp [cyclic_client_init, h1, h2, h3, Except.isOk, Except.toBool]
  · intro h
    simp [adaptive_init, h, Except.isOk, Except.toBool]
  · intro h1 h2 h3
    simp [make_strategy, h1, h2, h3, Except.isOk, Except.toBool]
  · intro h
    simp [simple_resource_init, h, Except.isOk, Except.toBool]
  · simp [simple_resource_init]

/-- Witness for `config_validation_spec`: a negative TTL is rejected, a
zero-rate resource is accepted. -/
theorem config_validation_spec_witness :
    ((-1 : ℚ) < 0) ∧
    (fixed_ttl_init (-1)).isOk = false ∧
    simple_resource_init "r-1" 0 = Except.ok ("r-1", 0) :=
  ⟨by norm_num,
    (config_validation_spec (-1) 1 0 1 1 "r-1").1 (by norm_num),
    (config_validation_spec (-1) 0 0 1 1 "r-1").2.2.2.2.2.2.2.1⟩

end CacheSim
